import Mathlib

/-!
Shallow embedding of the runtime animation-blending engine: the `Animator`
component of `src/packages/core/src/Scene.ts`.

Modelling conventions:
* All times, weights and value components are rationals (`ℚ`); the source
  uses JavaScript numbers and the claims are about exact arithmetic.
* JavaScript exceptions (`TypeError` from dereferencing `undefined`/`null`)
  are modelled with `Except JsError`; a thrown error aborts the call and the
  model discards the partial mutations (none of the properties below observe
  state after a throw).
* Mutation of the animator is modelled by explicit state passing; shared
  mutable sub-objects (play-data records, transition descriptors) are written
  back to every alias the source keeps, as noted at each site.
* Writes to entity transforms and the value snapshots (`defaultValue`,
  `fixedPoseValue`) read and write the scene world, which is an external
  collaborator; they do not touch the playback bookkeeping modelled here and
  are noted by comments where the source performs them.
-/

namespace Anim

/-- Truncation toward zero, as JavaScript division-based truncation behaves. -/
def jsTrunc (q : ℚ) : ℤ := if q < 0 then ⌈q⌉ else ⌊q⌋

/-- The JavaScript remainder operator `a % b`.  For the operands the engine
uses it on (`a ≥ 0`, `b > 0`) this agrees with the floor-based remainder. -/
def jsMod (a b : ℚ) : ℚ := a - b * (jsTrunc (a / b) : ℚ)

/-- A thrown JavaScript error (dereferencing `undefined`/`null`). -/
inductive JsError where
  | typeError
  deriving DecidableEq

/-! ## Value kinds (`InterpolableValueType`, `InterpolableValue`) -/

/-- `AnimationProperty` (enum): the transform property a curve targets. -/
inductive AnimationProperty where
  | Position
  | Rotation
  | Scale
  deriving DecidableEq

/-- `InterpolableValueType` (enum): the value-kind tag of a curve. -/
inductive InterpolableValueType where
  | Float
  | Vector2
  | Vector3
  | Vector4
  | Quaternion
  deriving DecidableEq

structure Vector2 where
  x : ℚ
  y : ℚ
  deriving DecidableEq

structure Vector3 where
  x : ℚ
  y : ℚ
  z : ℚ
  deriving DecidableEq

structure Vector4 where
  x : ℚ
  y : ℚ
  z : ℚ
  w : ℚ
  deriving DecidableEq

structure Quaternion where
  x : ℚ
  y : ℚ
  z : ℚ
  w : ℚ
  deriving DecidableEq

/-- `Quaternion.conjugate` of the external math package. -/
def Quaternion.conjugate (q : Quaternion) : Quaternion := ⟨-q.x, -q.y, -q.z, q.w⟩

/-- `Quaternion.multiply` (Hamilton product) of the external math package. -/
def Quaternion.multiply (a b : Quaternion) : Quaternion :=
  ⟨a.x * b.w + a.w * b.x + a.y * b.z - a.z * b.y,
   a.y * b.w + a.w * b.y + a.z * b.x - a.x * b.z,
   a.z * b.w + a.w * b.z + a.x * b.y - a.y * b.x,
   a.w * b.w - a.x * b.x - a.y * b.y - a.z * b.z⟩

/-- `InterpolableValue`: union of the five interpolable value kinds. -/
inductive InterpolableValue where
  | float (v : ℚ)
  | vec2 (v : Vector2)
  | vec3 (v : Vector3)
  | vec4 (v : Vector4)
  | quat (v : Quaternion)
  deriving DecidableEq

/- The source casts `InterpolableValue` with unchecked TypeScript `as` casts;
every call site passes a value matching the tag it dispatches on.  A cast of
a mismatched kind is modelled by a zero default. -/

def InterpolableValue.asFloat : InterpolableValue → ℚ
  | .float v => v
  | _ => 0

def InterpolableValue.asVector2 : InterpolableValue → Vector2
  | .vec2 v => v
  | _ => ⟨0, 0⟩

def InterpolableValue.asVector3 : InterpolableValue → Vector3
  | .vec3 v => v
  | _ => ⟨0, 0, 0⟩

def InterpolableValue.asVector4 : InterpolableValue → Vector4
  | .vec4 v => v
  | _ => ⟨0, 0, 0, 0⟩

def InterpolableValue.asQuaternion : InterpolableValue → Quaternion
  | .quat v => v
  | _ => ⟨0, 0, 0, 1⟩

/-! ## Diff-from-base-pose (`Animator._calculateDiff` and helpers)

The animator keeps one diff register per value kind
(`_diffFloatFromBasePose`, …, `_diffQuaternionFromBasePose`) plus
`_diffValueFromBasePose`, which always aliases the register written last.
`_diffValueFromBasePose` is declared without an initializer (JS `undefined`),
modelled as `Option`. -/

structure DiffState where
  diffFloatFromBasePose : ℚ
  diffVector2FromBasePose : Vector2
  diffVector3FromBasePose : Vector3
  diffVector4FromBasePose : Vector4
  diffQuaternionFromBasePose : Quaternion
  diffValueFromBasePose : Option InterpolableValue
  deriving DecidableEq

/-- The animator's diff registers as initialized by the field initializers. -/
def DiffState.initial : DiffState :=
  ⟨0, ⟨0, 0⟩, ⟨0, 0, 0⟩, ⟨0, 0, 0, 0⟩, ⟨0, 0, 0, 1⟩, none⟩

/-- `Animator._calculateFloatDiff`. -/
def calculateFloatDiff (st : DiffState) (property : AnimationProperty)
    (sVal dVal : ℚ) : DiffState :=
  let v := if property = AnimationProperty.Scale then dVal / sVal else dVal - sVal
  { st with diffFloatFromBasePose := v,
            diffValueFromBasePose := some (.float v) }

/-- `Animator._calculateVector2Diff`. -/
def calculateVector2Diff (st : DiffState) (property : AnimationProperty)
    (sVal dVal : Vector2) : DiffState :=
  let v : Vector2 :=
    if property = AnimationProperty.Scale then ⟨dVal.x / sVal.x, dVal.y / sVal.y⟩
    else ⟨dVal.x - sVal.x, dVal.y - sVal.y⟩
  { st with diffVector2FromBasePose := v,
            diffValueFromBasePose := some (.vec2 v) }

/-- `Animator._calculateVector3Diff`: component-wise ratio for `Scale`
(additive layers multiply scale), component-wise difference otherwise. -/
def calculateVector3Diff (st : DiffState) (property : AnimationProperty)
    (sVal dVal : Vector3) : DiffState :=
  let v : Vector3 :=
    if property = AnimationProperty.Scale then
      ⟨dVal.x / sVal.x, dVal.y / sVal.y, dVal.z / sVal.z⟩
    else ⟨dVal.x - sVal.x, dVal.y - sVal.y, dVal.z - sVal.z⟩
  { st with diffVector3FromBasePose := v,
            diffValueFromBasePose := some (.vec3 v) }

/-- `Animator._calculateVector4Diff`. -/
def calculateVector4Diff (st : DiffState) (property : AnimationProperty)
    (sVal dVal : Vector4) : DiffState :=
  let v : Vector4 :=
    if property = AnimationProperty.Scale then
      ⟨dVal.x / sVal.x, dVal.y / sVal.y, dVal.z / sVal.z, dVal.w / sVal.w⟩
    else ⟨dVal.x - sVal.x, dVal.y - sVal.y, dVal.z - sVal.z, dVal.w - sVal.w⟩
  { st with diffVector4FromBasePose := v,
            diffValueFromBasePose := some (.vec4 v) }

/-- `Animator._calculateQuaternionDiff`: `conjugate(sVal) * dVal`
(the source passes `dVal` first, `sVal` second). -/
def calculateQuaternionDiff (st : DiffState) (dVal sVal : Quaternion) : DiffState :=
  let v := Quaternion.multiply (Quaternion.conjugate sVal) dVal
  { st with diffQuaternionFromBasePose := v,
            diffValueFromBasePose := some (.quat v) }

/-- `Animator._calculateDiff`: dispatch on the value-kind tag.

The source's `switch` lists the case label `InterpolableValueType.Vector3`
twice: the first occurrence calls `_calculateVector3Diff`, the second (which
was evidently meant to read `Vector4` and call `_calculateVector4Diff`) is a
dead duplicate.  Consequently a `Vector4`-tagged value matches no case and
the switch falls through without touching any register, which is the
behaviour modelled here. -/
def calculateDiff (st : DiffState) (valueType : InterpolableValueType)
    (property : AnimationProperty) (sVal dVal : InterpolableValue) : DiffState :=
  match valueType with
  | .Float => calculateFloatDiff st property sVal.asFloat dVal.asFloat
  | .Vector2 => calculateVector2Diff st property sVal.asVector2 dVal.asVector2
  | .Vector3 => calculateVector3Diff st property sVal.asVector3 dVal.asVector3
  | .Vector4 => st
  | .Quaternion => calculateQuaternionDiff st dVal.asQuaternion sVal.asQuaternion

/-- Modelled from the spec: `AnimatorUtils.calScaleWeight` is code of this
repository that is not under `src/` (only its call site in
`Animator._updateAdditiveLayerValue` is).  The spec pins its behaviour only
at weight 1 — the §8 additive-scale property requires that applying a scale
diff at weight 1 multiplies the unchanged current scale — so it is modelled
as the identity on the scale, which is exact at weight 1. -/
def calScaleWeight (s : Vector3) (_weight : ℚ) : Vector3 := s

/-- The `Scale` arm of `Animator._updateAdditiveLayerValue`, as a value-level
function from the target's current scale to the scale it writes back:
`calScaleWeight(scale, weight, scale)` followed by component-wise
multiplication with the diff. -/
def updateAdditiveScaleValue (scale : Vector3) (diffVal : Vector3) (weight : ℚ) :
    Vector3 :=
  let s := calScaleWeight scale weight
  ⟨s.x * diffVal.x, s.y * diffVal.y, s.z * diffVal.z⟩

/-! ## Playback data model -/

/-- `WrapMode` (enum) of an animation clip. -/
inductive WrapMode where
  | Loop
  | Clamp
  deriving DecidableEq

/-- `PlayState` (enum) of one playback record. -/
inductive PlayState where
  | Playing
  | Fading
  | Crossing
  | Finished
  deriving DecidableEq

/-- `LayerState` (enum) of one animator layer. -/
inductive LayerState where
  | Standby
  | Playing
  | CrossFading
  | FixedCrossFading
  deriving DecidableEq

/-- `AnimatorStateTransition`: a transition descriptor.  The target state is
never read by the code modelled here and is omitted. -/
structure AnimatorStateTransition where
  duration : ℚ
  offset : ℚ
  crossFadeFrameTime : ℚ
  deriving DecidableEq

/-- Identity of an `AnimationCureOwner`: one per
(target entity `instanceId`, animated property) pair. -/
abbrev OwnerKey := ℕ × AnimationProperty

/-- The cross-fade bookkeeping of one `AnimationCureOwner` (its value
snapshots `defaultValue`/`fixedPoseValue` live in the scene world, outside
this model). -/
structure AnimationCureOwner where
  crossCurveMark : ℕ
  crossCurveIndex : ℕ
  deriving DecidableEq

/-- `AnimatorState`: a named state wrapping one clip.  `clipLength` is
`state.clip.length`; `clipEndTime` and `wrapMode` are the clip's.
`ownerKeys` is, per curve of the clip, the (entity, property) identity that
`_saveAnimatorStateData` resolves through `entity.findByPath` — the entity
tree is an external collaborator, so that resolution is collapsed into this
precomputed list. -/
structure AnimatorState where
  name : String
  clipLength : ℚ
  clipEndTime : ℚ
  wrapMode : WrapMode
  transitions : List AnimatorStateTransition
  ownerKeys : List OwnerKey
  deriving DecidableEq

/-- `AnimatorStateData`: the ordered owner list of one (layer, state). -/
structure AnimatorStateData where
  owners : List OwnerKey
  deriving DecidableEq

/-- `CrossCurveData`: one pooled pairing record of the cross-curve buffer. -/
structure CrossCurveData where
  owner : OwnerKey
  curCurveIndex : Option ℕ
  nextCurveIndex : Option ℕ
  deriving DecidableEq

/-- `AnimatorStatePlayData`: one mutable playback record.  Fields the source
leaves unassigned on a fresh record (JS `undefined`) are `none`. -/
structure AnimatorStatePlayData where
  state : Option AnimatorState
  frameTime : ℚ
  playState : Option PlayState
  stateData : Option AnimatorStateData
  deriving DecidableEq

def AnimatorStatePlayData.fresh : AnimatorStatePlayData := ⟨none, 0, none, none⟩

/-- `AnimatorLayerData` (internal, not under `src/`): the layer's state
machine, its src/dest playback records, the generation counter, and the
name→stateData cache. -/
structure AnimatorLayerData where
  layerState : LayerState
  srcPlayData : AnimatorStatePlayData
  destPlayData : AnimatorStatePlayData
  crossCurveMark : ℕ
  animatorStateDataMap : String → Option AnimatorStateData

/-- A lazily created layer record, as `_getAnimatorLayerData` builds it. -/
def AnimatorLayerData.fresh : AnimatorLayerData :=
  ⟨LayerState.Standby, .fresh, .fresh, 0, fun _ => none⟩

/-- One `AnimatorControllerLayer`: per the §6 interface it exposes
`stateMachine.findStateByName`; blending mode and weight affect only value
writes, outside this model. -/
structure AnimatorControllerLayer where
  name : String
  weight : ℚ
  stateMachine : List AnimatorState

/-- `stateMachine.findStateByName(name) -> State | null` (§6 contract). -/
def findStateByName (layer : AnimatorControllerLayer) (name : String) :
    Option AnimatorState :=
  layer.stateMachine.find? (fun s => s.name == name)

structure AnimatorController where
  layers : List AnimatorControllerLayer

/-- The `Animator` component state: playback speed, the attached controller,
the sparse per-layer data array (fresh layer data on first access), the
shared cross-curve buffer, the shared pose transition descriptor, and the
process-lifetime `AnimationCureOwner` cache. -/
structure Animator where
  speed : ℚ
  animatorController : Option AnimatorController
  animatorLayersData : ℕ → AnimatorLayerData
  crossCurveData : List CrossCurveData
  transitionForPose : AnimatorStateTransition
  cureOwners : OwnerKey → AnimationCureOwner

/-- JavaScript array indexing with a possibly negative index: any index
outside the array yields `undefined`. -/
def listGetZ {α : Type} (l : List α) (i : ℤ) : Option α :=
  if i < 0 then none else l.get? i.toNat

/-! ## `Animator._getAnimatorStateInfo` -/

/-- The `layerIndex === -1` search loop of `_getAnimatorStateInfo`.  The
source reads `for (let i = 0, n = layers.length; i < n; i--)` — the index is
*decremented* — so starting from `i = 0` the loop either finds the state in
layer 0 and breaks, or moves to `i = -1`, where `layers[-1]` is `undefined`
and the `.stateMachine` dereference throws.  It therefore runs at most two
iterations: `fuel = 2` is exact and the fuel-exhaustion branch is
unreachable at every call below. -/
def searchAllLayersLoop (layers : List AnimatorControllerLayer)
    (stateName : String) : ℕ → ℤ → Except JsError (ℤ × Option AnimatorState)
  | 0, _ => .error .typeError
  | fuel + 1, i =>
    if i < (layers.length : ℤ) then
      match listGetZ layers i with
      | none => .error .typeError
      | some layer =>
        match findStateByName layer stateName with
        | some s => .ok (i, some s)
        | none => searchAllLayersLoop layers stateName fuel (i - 1)
    else .ok (-1, none)

/-- `Animator._getAnimatorStateInfo`. -/
def getAnimatorStateInfo (a : Animator) (stateName : String) (layerIndex : ℤ) :
    Except JsError (ℤ × Option AnimatorState) :=
  match a.animatorController with
  | none => .ok (layerIndex, none)
  | some ctrl =>
    if layerIndex = -1 then
      searchAllLayersLoop ctrl.layers stateName 2 0
    else
      match listGetZ ctrl.layers layerIndex with
      | none => .error .typeError  -- layers[layerIndex] is undefined: .stateMachine throws
      | some layer => .ok (layerIndex, findStateByName layer stateName)

/-- `Animator._getAnimatorStateData` together with `_saveAnimatorStateData`:
look up the layer's name→stateData cache, building the owner list on first
use.  Creating a missing `AnimationCureOwner` is a no-op on the bookkeeping
modelled here: a fresh owner's mark/index are the store's defaults. -/
def getAnimatorStateData (stateName : String) (animatorState : AnimatorState)
    (d : AnimatorLayerData) : AnimatorStateData × AnimatorLayerData :=
  match d.animatorStateDataMap stateName with
  | some sd => (sd, d)
  | none =>
    let sd : AnimatorStateData := ⟨animatorState.ownerKeys⟩
    (sd, { d with animatorStateDataMap :=
             fun n => if n = stateName then some sd else d.animatorStateDataMap n })

/-! ## `Animator.play` -/

/-- `Animator.play`.  The conditional pose revert (`_revertDefaultValue`) and
the default snapshots (`_saveDefaultValues`) write entity transforms and
owner value snapshots only (outside this model). -/
def play (a : Animator) (stateName : String) (layerIndex : ℤ)
    (normalizedTimeOffset : ℚ) : Except JsError Animator :=
  match getAnimatorStateInfo a stateName layerIndex with
  | .error e => .error e
  | .ok (_, none) => .ok a
  | .ok (validLayerIndex, some playSt) =>
    let idx := validLayerIndex.toNat
    let d := a.animatorLayersData idx
    -- if (state && state !== playState) this._revertDefaultValue(srcPlayData): world only
    let (animatorStateData, d) := getAnimatorStateData stateName playSt d
    let d := { d with
      layerState := LayerState.Playing,
      srcPlayData :=
        { state := some playSt,
          frameTime := playSt.clipLength * normalizedTimeOffset,
          playState := some PlayState.Playing,
          stateData := some animatorStateData } }
    -- this._saveDefaultValues(animatorStateData): world only
    .ok { a with animatorLayersData :=
            fun j => if j = idx then d else a.animatorLayersData j }

/-! ## Cross-curve pairing (`_clearCrossData`, `_prepare…CrossData`) -/

/-- `Animator._addCrossCurveData`: acquire a record from the pool, fill it
and push it.  The pool only recycles storage; logically a record is
appended. -/
def addCrossCurveData (ccd : List CrossCurveData) (owner : OwnerKey)
    (curCurveIndex nextCurveIndex : Option ℕ) : List CrossCurveData :=
  ccd ++ [⟨owner, curCurveIndex, nextCurveIndex⟩]

/-- `Animator._prepareSrcCrossData`: iterate the source owners from the last
index down to 0, stamping each with the generation mark and its index in the
cross-curve buffer, and append a src-side record per owner.  `saveFixed`
controls only the fixed-pose value snapshot (world state). -/
def prepareSrcCrossData (store : OwnerKey → AnimationCureOwner)
    (ccd : List CrossCurveData) (owners : List OwnerKey) (mark : ℕ)
    (_saveFixed : Bool) : (OwnerKey → AnimationCureOwner) × List CrossCurveData :=
  (owners.enum.reverse).foldl
    (fun acc p =>
      let store := acc.1
      let ccd := acc.2
      let key := p.2
      let o := store key
      let o := { o with crossCurveMark := mark, crossCurveIndex := ccd.length }
      -- saveFixed && owner.saveFixedPoseValue(): world only
      (fun k => if k = key then o else store k,
       addCrossCurveData ccd key (some p.1) none))
    (store, ccd)

/-- `Animator._prepareDestCrossData`: iterate the destination owners from the
last index down to 0.  An owner already stamped with the current mark gets
its `nextCurveIndex` filled in in the existing record; otherwise a new
destination-only record is appended. -/
def prepareDestCrossData (store : OwnerKey → AnimationCureOwner)
    (ccd : List CrossCurveData) (owners : List OwnerKey) (mark : ℕ)
    (_saveFixed : Bool) :
    Except JsError ((OwnerKey → AnimationCureOwner) × List CrossCurveData) :=
  (owners.enum.reverse).foldlM
    (fun acc p =>
      let store := acc.1
      let ccd := acc.2
      let key := p.2
      let o := store key
      if o.crossCurveMark = mark then
        match ccd.get? o.crossCurveIndex with
        | none => .error JsError.typeError  -- stale index: write on undefined
        | some c =>
          .ok (store, ccd.set o.crossCurveIndex { c with nextCurveIndex := some p.1 })
      else
        -- saveFixed && owner.saveFixedPoseValue(): world only
        let o := { o with crossCurveMark := mark }
        .ok (fun k => if k = key then o else store k,
             addCrossCurveData ccd key none (some p.1)))
    (store, ccd)

/-- `Animator._prepareFiexdPoseCrossFading`: save each buffered owner's
fixed pose (world only), then pair the existing buffer against the new
destination. -/
def prepareFiexdPoseCrossFading (store : OwnerKey → AnimationCureOwner)
    (ccd : List CrossCurveData) (destOwners : List OwnerKey) (mark : ℕ) :
    Except JsError ((OwnerKey → AnimationCureOwner) × List CrossCurveData) :=
  prepareDestCrossData store ccd destOwners mark true

/-! ## `Animator.crossFade` -/

/-- Modelled from the spec: `AnimatorState.addTransition` and the
`AnimatorStateTransition` constructor are not under `src/` (only their call
site in `crossFade` is).  Per §4.2 the `Playing` case "allocates a
transition descriptor from the current state to the destination": a fresh
descriptor with zero elapsed cross-fade time, appended to the state's
transition list and returned. -/
def freshStateTransition : AnimatorStateTransition := ⟨0, 0, 0⟩

/-- The writes at the end of `Animator.crossFade`: `transition.duration =
clipLength * normalizedTransitionDuration`, `transition.offset = clipLength *
normalizedTimeOffset`, then the clamp `if (duration > clipEndTime - offset)
duration = clipEndTime - offset`. -/
def writeTransitionTimes (t : AnimatorStateTransition)
    (crossState : AnimatorState)
    (normalizedTransitionDuration normalizedTimeOffset : ℚ) :
    AnimatorStateTransition :=
  let clipLength := crossState.clipLength
  let dur := clipLength * normalizedTransitionDuration
  let off := clipLength * normalizedTimeOffset
  { t with
    duration :=
      if dur > crossState.clipEndTime - off then crossState.clipEndTime - off
      else dur,
    offset := off }

/-- `Animator.crossFade`.  The second component of a successful result is the
transition descriptor the call wrote, also stored in the returned animator
(`none` when the call no-ops on an unresolved name); it is returned for
specification purposes.

In the `LayerState.FixedCrossFading` case the source's `switch` never
assigns the local `transition`, so the assignment `transition.duration = …`
after the switch dereferences `undefined` and throws; the mutations made
before the throw persist in JS but are discarded by this `Except` model (no
property below observes state after a throw). -/
def crossFade (a : Animator) (stateName : String)
    (normalizedTransitionDuration : ℚ) (layerIndex : ℤ)
    (normalizedTimeOffset : ℚ) :
    Except JsError (Animator × Option AnimatorStateTransition) :=
  match getAnimatorStateInfo a stateName layerIndex with
  | .error e => .error e
  | .ok (_, none) => .ok (a, none)
  | .ok (validLayerIndex, some crossState) =>
    let idx := validLayerIndex.toNat
    let d := a.animatorLayersData idx
    let playState := d.layerState
    let srcState := d.srcPlayData.state
    let (animatorStateData, d) := getAnimatorStateData stateName crossState d
    let d := { d with destPlayData :=
      { state := some crossState, frameTime := 0,
        playState := some PlayState.Crossing,
        stateData := some animatorStateData } }
    -- this._saveDefaultValues(animatorStateData): world only
    match playState with
    | LayerState.Standby =>
      let d := { d with layerState := LayerState.FixedCrossFading,
                        crossCurveMark := d.crossCurveMark + 1 }
      let store := a.cureOwners
      let ccd : List CrossCurveData := []
      -- a never-played layer has no src record (`AnimatorLayerData` is
      -- internal, not under src/); the source's `srcPlayData &&` null test
      -- is modelled as presence of the record's stateData
      let (store, ccd) :=
        match d.srcPlayData.stateData with
        | some sd => prepareSrcCrossData store ccd sd.owners d.crossCurveMark true
        | none => (store, ccd)
      match prepareDestCrossData store ccd animatorStateData.owners
          d.crossCurveMark true with
      | .error e => .error e
      | .ok (store, ccd) =>
        let t := writeTransitionTimes a.transitionForPose crossState
          normalizedTransitionDuration normalizedTimeOffset
        .ok ({ a with
                 transitionForPose := t,
                 cureOwners := store,
                 crossCurveData := ccd,
                 animatorLayersData :=
                   fun j => if j = idx then d else a.animatorLayersData j },
             some t)
    | LayerState.Playing =>
      let d := { d with layerState := LayerState.CrossFading,
                        crossCurveMark := d.crossCurveMark + 1 }
      let store := a.cureOwners
      let ccd : List CrossCurveData := []
      match d.srcPlayData.stateData with
      | none => .error JsError.typeError  -- srcPlayData.stateData.owners on undefined
      | some srcSd =>
        let (store, ccd) :=
          prepareSrcCrossData store ccd srcSd.owners d.crossCurveMark false
        match prepareDestCrossData store ccd animatorStateData.owners
            d.crossCurveMark false with
        | .error e => .error e
        | .ok (store, ccd) =>
          let d := { d with srcPlayData :=
            { d.srcPlayData with playState := some PlayState.Fading } }
          match srcState with
          | none => .error JsError.typeError  -- state.addTransition on null
          | some s =>
            -- the source appends the fresh descriptor and then writes its
            -- duration/offset through the returned reference; nothing reads
            -- the descriptor in between, so the final value is appended.
            -- The state object is shared with the layer's state machine;
            -- the model writes back the alias the update loop reads
            -- (`srcPlayData.state`).
            let t := writeTransitionTimes freshStateTransition crossState
              normalizedTransitionDuration normalizedTimeOffset
            let s := { s with transitions := s.transitions ++ [t] }
            let d := { d with srcPlayData :=
              { d.srcPlayData with state := some s } }
            .ok ({ a with
                     cureOwners := store,
                     crossCurveData := ccd,
                     animatorLayersData :=
                       fun j => if j = idx then d else a.animatorLayersData j },
                 some t)
    | LayerState.CrossFading =>
      let d := { d with layerState := LayerState.FixedCrossFading }
      match prepareFiexdPoseCrossFading a.cureOwners a.crossCurveData
          animatorStateData.owners d.crossCurveMark with
      | .error e => .error e
      | .ok (store, ccd) =>
        let t := writeTransitionTimes a.transitionForPose crossState
          normalizedTransitionDuration normalizedTimeOffset
        .ok ({ a with
                 transitionForPose := t,
                 cureOwners := store,
                 crossCurveData := ccd,
                 animatorLayersData :=
                   fun j => if j = idx then d else a.animatorLayersData j },
             some t)
    | LayerState.FixedCrossFading =>
      match prepareFiexdPoseCrossFading a.cureOwners a.crossCurveData
          animatorStateData.owners d.crossCurveMark with
      | .error e => .error e
      | .ok _ =>
        -- `let transition: AnimatorStateTransition;` was never assigned in
        -- this case: `transition.duration = …` throws
        .error JsError.typeError

/-! ## `Animator.update` -/

/-- The frame-advance phase of `Animator.update` for one layer:
`srcPlayData.frameTime += deltaTime / 1000` followed by the wrap/clamp block
guarded by `playState === Playing`.  `dt` is the frame delta in
milliseconds, already multiplied by `speed`. -/
def advanceSrcPlayData (src : AnimatorStatePlayData) (dt : ℚ) :
    Except JsError AnimatorStatePlayData :=
  let src := { src with frameTime := src.frameTime + dt / 1000 }
  if src.playState = some PlayState.Playing then
    match src.state with
    | none => .error JsError.typeError  -- srcPlayData.state.clipEndTime on undefined
    | some s =>
      if src.frameTime > s.clipEndTime then
        if s.wrapMode = WrapMode.Loop then
          .ok { src with frameTime := jsMod src.frameTime s.clipEndTime }
        else
          .ok { src with frameTime := s.clipEndTime,
                         playState := some PlayState.Finished }
      else .ok src
  else .ok src

/-- The destination frame-time wrap/clamp performed inline by both
`Animator._updateCrossFade` and `Animator._updateCrossFadeFromPose`. -/
def wrapDestFrameTime (destinationState : AnimatorState) (frameTime : ℚ) : ℚ :=
  if frameTime > destinationState.clipEndTime then
    if destinationState.wrapMode = WrapMode.Loop then
      jsMod frameTime destinationState.clipEndTime
    else destinationState.clipEndTime
  else frameTime

/-- Result of one layer's slice of `Animator.update`: the (possibly updated)
shared pose transition, the layer's data, and — on the cross-fade paths —
the cross weight the step computed, returned for specification purposes (it
is a local in the source). -/
structure LayerStepResult where
  transitionForPose : AnimatorStateTransition
  layerData : AnimatorLayerData
  crossWeight : Option ℚ

/-- `Animator._updateCrossFade` (bookkeeping part; `src` is the layer's
already-advanced `srcPlayData`, `t` is `src.state.transitions[0]`).  The
per-curve blend loop evaluates curves and writes entity transforms only.  On
completion the source executes `srcPlayData = destPlayData` — both fields
alias one record from then on — and writes the computed dest frame time
through the shared record, so the write is applied to both fields here. -/
def updateCrossFade (src : AnimatorStatePlayData) (s : AnimatorState)
    (t : AnimatorStateTransition) (d : AnimatorLayerData)
    (poseT : AnimatorStateTransition) (dt : ℚ) : Except JsError LayerStepResult :=
  match d.destPlayData.state with
  | none => .error JsError.typeError  -- destinationState.clip on undefined
  | some destinationState =>
    let t := { t with crossFadeFrameTime := t.crossFadeFrameTime + dt / 1000 }
    let frameTime := wrapDestFrameTime destinationState (t.offset + t.crossFadeFrameTime)
    let cw := t.crossFadeFrameTime / t.duration
    let crossWeight := if cw ≥ 1 then 1 else cw
    let src := if cw ≥ 1 then { src with playState := some PlayState.Finished } else src
    -- per-curve blend loop: entity transforms only
    let s := { s with transitions := s.transitions.set 0 t }
    let src := { src with state := some s }
    if src.playState = some PlayState.Finished then
      let promoted := { d.destPlayData with frameTime := frameTime }
      .ok ⟨poseT, { d with srcPlayData := promoted, destPlayData := promoted,
                           layerState := LayerState.Playing }, some crossWeight⟩
    else
      .ok ⟨poseT, { d with srcPlayData := src }, some crossWeight⟩

/-- `Animator._updateCrossFadeFromPose` (bookkeeping part).  The blend loop
reads fixed-pose snapshots and writes entity transforms only.  On completion
`srcPlayData = destPlayData` aliases the two fields and the frame-time write
goes through the shared record.  Note this handler never writes the layer's
`layerState`. -/
def updateCrossFadeFromPose (d : AnimatorLayerData)
    (poseT : AnimatorStateTransition) (dt : ℚ) : Except JsError LayerStepResult :=
  match d.destPlayData.state with
  | none => .error JsError.typeError
  | some destinationState =>
    let t := { poseT with crossFadeFrameTime := poseT.crossFadeFrameTime + dt / 1000 }
    let frameTime := wrapDestFrameTime destinationState (t.offset + t.crossFadeFrameTime)
    let cw := t.crossFadeFrameTime / t.duration
    let crossWeight := if cw ≥ 1 then 1 else cw
    let dest :=
      if cw ≥ 1 then { d.destPlayData with playState := some PlayState.Playing }
      else d.destPlayData
    -- per-curve blend loop: entity transforms only
    if dest.playState = some PlayState.Playing then
      let promoted := { dest with frameTime := frameTime }
      .ok ⟨t, { d with srcPlayData := promoted, destPlayData := promoted },
           some crossWeight⟩
    else
      .ok ⟨t, { d with destPlayData := dest }, some crossWeight⟩

/-- One layer's slice of the body of `Animator.update`: the `Standby` skip,
the frame-advance phase, and the `_updateLayer` dispatch.  The layer's
weight and blending mode select among value writes only, which live outside
this model. -/
def updateStepForLayer (poseT : AnimatorStateTransition) (d : AnimatorLayerData)
    (dt : ℚ) : Except JsError LayerStepResult :=
  if d.layerState = LayerState.Standby then .ok ⟨poseT, d, none⟩
  else
    match advanceSrcPlayData d.srcPlayData dt with
    | .error e => .error e
    | .ok src =>
      let d := { d with srcPlayData := src }
      match d.layerState with
      | LayerState.Playing =>
        -- `_updatePlayingState`: resets playState to Playing, then evaluates
        -- every curve and writes entity transforms (and, on additive layers,
        -- the diff registers) — those writes are outside this model
        match src.state with
        | none => .error JsError.typeError  -- playingStateData.state.clip on undefined
        | some _ =>
          .ok ⟨poseT,
               { d with srcPlayData := { src with playState := some PlayState.Playing } },
               none⟩
      | LayerState.FixedCrossFading => updateCrossFadeFromPose d poseT dt
      | LayerState.CrossFading =>
        match src.state with
        | none => .error JsError.typeError  -- srcPlayData.state.transitions on undefined
        | some s =>
          match s.transitions.head? with
          | none => .ok ⟨poseT, d, none⟩  -- `if (transition)` is false: skip
          | some t => updateCrossFade src s t d poseT dt
      | LayerState.Standby => .ok ⟨poseT, d, none⟩  -- unreachable: checked above

/-- `Animator.update(deltaTime)`: no-op when `speed` is 0 or no controller is
attached; otherwise scale the delta by `speed` and run every layer's step in
order. -/
def update (a : Animator) (deltaTime : ℚ) : Except JsError Animator :=
  if a.speed = 0 then .ok a
  else
    match a.animatorController with
    | none => .ok a
    | some ctrl =>
      let dt := deltaTime * a.speed
      (List.range ctrl.layers.length).foldlM
        (fun acc i =>
          match updateStepForLayer acc.transitionForPose (acc.animatorLayersData i) dt with
          | .error e => .error e
          | .ok r => .ok { acc with
              transitionForPose := r.transitionForPose,
              animatorLayersData :=
                fun j => if j = i then r.layerData else acc.animatorLayersData j })
        a

/-! ## Concrete fixtures -/

/-- A 1-second looping state named "idle" with no curves and no outgoing
transitions. -/
def idleState : AnimatorState := ⟨"idle", 1, 1, WrapMode.Loop, [], []⟩

/-- A half-second looping state named "walk". -/
def walkState : AnimatorState := ⟨"walk", 1/2, 1/2, WrapMode.Loop, [], []⟩

/-- A 1-second non-looping (Clamp) state. -/
def clampState : AnimatorState := ⟨"clamp", 1, 1, WrapMode.Clamp, [], []⟩

/-- An animator fixture: speed 1, a single layer whose state machine holds
`sts`, every layer-data slot holding `d`, empty cross-curve buffer, zeroed
pose transition, default owner store. -/
def animatorWith (d : AnimatorLayerData) (sts : List AnimatorState) : Animator :=
  ⟨1, some ⟨[⟨"base", 1, sts⟩]⟩, fun _ => d, [], ⟨0, 0, 0⟩, fun _ => ⟨0, 0⟩⟩

/-- An animator whose only layer's state machine knows just "idle". -/
def missingNameAnimator : Animator := animatorWith .fresh [idleState]

/-- A layer playing the Clamp state with `frameTime` already at
`clipEndTime`. -/
def clampEndLayer : AnimatorLayerData :=
  { layerState := LayerState.Playing,
    srcPlayData := ⟨some clampState, 1, some PlayState.Playing, some ⟨[]⟩⟩,
    destPlayData := .fresh,
    crossCurveMark := 0,
    animatorStateDataMap := fun _ => none }

/-- Single-layer animator around `clampEndLayer`. -/
def clampAnimator : Animator := animatorWith clampEndLayer [clampState]

/-- A source state fading out through a quarter-second transition. -/
def fadeSrcState : AnimatorState :=
  ⟨"idle", 1, 1, WrapMode.Loop, [⟨1/4, 0, 0⟩], []⟩

/-- A layer mid cross-fade from `fadeSrcState` to `walkState`. -/
def crossFadingLayer : AnimatorLayerData :=
  { layerState := LayerState.CrossFading,
    srcPlayData := ⟨some fadeSrcState, 3/10, some PlayState.Fading, some ⟨[]⟩⟩,
    destPlayData := ⟨some walkState, 0, some PlayState.Crossing, some ⟨[]⟩⟩,
    crossCurveMark := 1,
    animatorStateDataMap := fun _ => none }

/-- A zeroed transition descriptor. -/
def poseT0 : AnimatorStateTransition := ⟨0, 0, 0⟩

/-- A quarter-second pose transition with no elapsed time. -/
def poseTQuarter : AnimatorStateTransition := ⟨1/4, 0, 0⟩

/-- A layer in a fixed-pose cross-fade toward `walkState`. -/
def fixedLayer : AnimatorLayerData :=
  { layerState := LayerState.FixedCrossFading,
    srcPlayData := ⟨some idleState, 0, some PlayState.Fading, some ⟨[]⟩⟩,
    destPlayData := ⟨some walkState, 0, some PlayState.Crossing, some ⟨[]⟩⟩,
    crossCurveMark := 1,
    animatorStateDataMap := fun _ => none }

/-- Single-layer animator around `fixedLayer`. -/
def fixedAnimator : Animator := animatorWith fixedLayer [idleState, walkState]

/-- A layer playing the looping `idleState` at `frameTime = 1/2`. -/
def loopMidLayer : AnimatorLayerData :=
  { layerState := LayerState.Playing,
    srcPlayData := ⟨some idleState, 1/2, some PlayState.Playing, some ⟨[]⟩⟩,
    destPlayData := .fresh,
    crossCurveMark := 0,
    animatorStateDataMap := fun _ => none }

/-- An idle animator whose only layer's machine knows "walk". -/
def standbyAnimator : Animator := animatorWith .fresh [walkState]

/-! ## Helper lemmas -/

theorem jsTrunc_of_nonneg {q : ℚ} (h : 0 ≤ q) : jsTrunc q = ⌊q⌋ := by
  simp [jsTrunc, not_lt.mpr h]

theorem jsMod_nonneg {a b : ℚ} (ha : 0 ≤ a) (hb : 0 < b) : 0 ≤ jsMod a b := by
  have hq : (0:ℚ) ≤ a / b := div_nonneg ha hb.le
  rw [jsMod, jsTrunc_of_nonneg hq]
  have h1 : (↑⌊a / b⌋ : ℚ) ≤ a / b := Int.floor_le (a / b)
  have h2 : b * (↑⌊a / b⌋ : ℚ) ≤ b * (a / b) := mul_le_mul_of_nonneg_left h1 hb.le
  have h3 : b * (a / b) = a := mul_div_cancel₀ a hb.ne'
  linarith

theorem jsMod_lt {a b : ℚ} (ha : 0 ≤ a) (hb : 0 < b) : jsMod a b < b := by
  have hq : (0:ℚ) ≤ a / b := div_nonneg ha hb.le
  rw [jsMod, jsTrunc_of_nonneg hq]
  have h1 : a / b < (↑⌊a / b⌋ : ℚ) + 1 := Int.lt_floor_add_one (a / b)
  have h2 : b * (a / b) < b * ((↑⌊a / b⌋ : ℚ) + 1) := (mul_lt_mul_left hb).mpr h1
  have h3 : b * (a / b) = a := mul_div_cancel₀ a hb.ne'
  nlinarith

theorem writeTransitionTimes_le (t : AnimatorStateTransition) (S : AnimatorState)
    (ntd nto : ℚ) :
    (writeTransitionTimes t S ntd nto).offset = S.clipLength * nto ∧
    (writeTransitionTimes t S ntd nto).duration ≤
      S.clipEndTime - S.clipLength * nto := by
  unfold writeTransitionTimes
  refine ⟨rfl, ?_⟩
  dsimp only
  split_ifs with h
  · exact le_rfl
  · linarith [not_lt.mp h]

theorem advanceSrcPlayData_isOk (src : AnimatorStatePlayData) (dt : ℚ)
    (h : src.playState = some PlayState.Playing → src.state.isSome = true) :
    ∃ src1, advanceSrcPlayData src dt = .ok src1 := by
  unfold advanceSrcPlayData
  dsimp only
  split_ifs with hps
  · rcases hst : src.state with _ | s
    · exact absurd (h hps) (by rw [hst]; decide)
    · dsimp only
      split_ifs <;> exact ⟨_, rfl⟩
  · exact ⟨_, rfl⟩

/-- A successful `crossFade` from `Standby` on a layer that never played and
whose destination state binds no curves: it completes and writes the clamped
duration/offset into the shared pose transition. -/
theorem crossFade_standby_ok (a : Animator) (stateName : String)
    (ntd nto : ℚ) (layerIndex : ℤ) (i : ℕ) (S : AnimatorState)
    (hres : getAnimatorStateInfo a stateName layerIndex = .ok ((i : ℤ), some S))
    (hls : (a.animatorLayersData i).layerState = LayerState.Standby)
    (hsd : (a.animatorLayersData i).srcPlayData.stateData = none)
    (hmap : (a.animatorLayersData i).animatorStateDataMap stateName = none)
    (hso : S.ownerKeys = []) :
    ∃ a2, crossFade a stateName ntd layerIndex nto =
      .ok (a2, some (writeTransitionTimes a.transitionForPose S ntd nto)) := by
  unfold crossFade
  rw [hres]
  dsimp only
  rw [Int.toNat_natCast]
  unfold getAnimatorStateData
  rw [hmap]
  dsimp only
  rw [hls]
  dsimp only
  rw [hsd]
  dsimp only
  unfold prepareDestCrossData
  rw [hso]
  simp only [List.enum_nil, List.reverse_nil, List.foldlM_nil]
  exact ⟨_, rfl⟩

/-! ## The claims -/

/-- Claim C1 (code bug): `play` with `layerIndex = -1` is not a silent no-op
when the name is missing from layer 0.  The search loop in
`_getAnimatorStateInfo` decrements its index (`for (i = 0; i < n; i--)`), so
after layer 0 misses it dereferences `layers[-1].stateMachine` and throws a
TypeError.  Concretely: an animator whose only layer knows only "idle"
throws on `play("walk", -1, 0)` instead of no-opping. -/
theorem play_unresolved_search_throws :
    play missingNameAnimator "walk" (-1) 0 = .error JsError.typeError := rfl

/-- Claim C2 (amended): for a non-looping (Clamp) state, once `frameTime`
has reached `clipEndTime`, every further update step leaves `frameTime`
equal to `clipEndTime`; the advance phase marks the src record `Finished`
whenever the delta is positive, but `_updatePlayingState` then resets
`playState` to `Playing` before the step returns, so after `update` the
play state reads `Playing`, not `Finished`. -/
theorem update_after_clip_end (poseT : AnimatorStateTransition)
    (d : AnimatorLayerData) (s : AnimatorState) (dt : ℚ)
    (hls : d.layerState = LayerState.Playing)
    (hstate : d.srcPlayData.state = some s)
    (hps : d.srcPlayData.playState = some PlayState.Playing)
    (hwrap : s.wrapMode = WrapMode.Clamp)
    (hat : d.srcPlayData.frameTime = s.clipEndTime)
    (hdt : 0 ≤ dt) :
    ∃ r, updateStepForLayer poseT d dt = .ok r ∧
      r.layerData.srcPlayData.frameTime = s.clipEndTime ∧
      r.layerData.srcPlayData.playState = some PlayState.Playing ∧
      r.layerData.layerState = LayerState.Playing ∧
      (0 < dt → ∃ src1, advanceSrcPlayData d.srcPlayData dt = .ok src1 ∧
        src1.playState = some PlayState.Finished ∧
        src1.frameTime = s.clipEndTime) := by
  rcases eq_or_lt_of_le hdt with hdt0 | hdt0
  · -- dt = 0: the frame time stays at the clip end and no clamp fires
    have hfe : d.srcPlayData.frameTime + dt / 1000 = s.clipEndTime := by
      rw [hat, ← hdt0]; ring
    have hadv : advanceSrcPlayData d.srcPlayData dt = .ok
        { d.srcPlayData with frameTime := s.clipEndTime } := by
      unfold advanceSrcPlayData
      simp [hstate, hps, hfe]
    have hstep : updateStepForLayer poseT d dt = .ok
        ⟨poseT,
         { d with srcPlayData := { d.srcPlayData with
             frameTime := s.clipEndTime,
             playState := some PlayState.Playing } }, none⟩ := by
      unfold updateStepForLayer
      simp [hls, hadv, hstate]
    refine ⟨_, hstep, by simp, by simp, by simp [hls], ?_⟩
    intro h; exact absurd h (by rw [← hdt0]; exact lt_irrefl 0)
  · -- dt > 0: the clamp fires, marks Finished, and the dispatch resets
    have hgt : s.clipEndTime < d.srcPlayData.frameTime + dt / 1000 := by
      rw [hat]
      have : 0 < dt / 1000 := by positivity
      linarith
    have hadv : advanceSrcPlayData d.srcPlayData dt = .ok
        { d.srcPlayData with frameTime := s.clipEndTime,
                             playState := some PlayState.Finished } := by
      unfold advanceSrcPlayData
      simp [hstate, hps, hwrap, hgt]
    have hstep : updateStepForLayer poseT d dt = .ok
        ⟨poseT,
         { d with srcPlayData := { d.srcPlayData with
             frameTime := s.clipEndTime,
             playState := some PlayState.Playing } }, none⟩ := by
      unfold updateStepForLayer
      simp [hls, hadv, hstate]
    refine ⟨_, hstep, by simp, by simp, by simp [hls], ?_⟩
    intro _; exact ⟨_, hadv, rfl, rfl⟩


/-- Witness for C2's theorem at a concrete input: the Clamp state of length
1 sitting at its end, stepped by 500 ms. -/
theorem update_after_clip_end_witness :
    ∃ r, updateStepForLayer poseT0 clampEndLayer 500 = .ok r ∧
      r.layerData.srcPlayData.frameTime = clampState.clipEndTime ∧
      r.layerData.srcPlayData.playState = some PlayState.Playing ∧
      r.layerData.layerState = LayerState.Playing ∧
      ((0:ℚ) < 500 → ∃ src1,
        advanceSrcPlayData clampEndLayer.srcPlayData 500 = .ok src1 ∧
        src1.playState = some PlayState.Finished ∧
        src1.frameTime = clampState.clipEndTime) :=
  update_after_clip_end poseT0 clampEndLayer clampState 500 rfl rfl rfl rfl rfl
    (by norm_num)

/-- Counterexample to claim C2 as stated: after a full `update` call on a
finished Clamp state, the src record's `playState` is `Playing`, not
`Finished` (the frame time does stay at `clipEndTime`). -/
theorem update_finished_refuted :
    (update clampAnimator 500).map
        (fun a2 => ((a2.animatorLayersData 0).srcPlayData.frameTime,
                    (a2.animatorLayersData 0).srcPlayData.playState))
      = .ok (1, some PlayState.Playing) ∧
    some PlayState.Playing ≠ some PlayState.Finished := by
  refine ⟨?_, by decide⟩
  have hadv : advanceSrcPlayData clampEndLayer.srcPlayData 500 =
      .ok ⟨some clampState, 1, some PlayState.Finished, some ⟨[]⟩⟩ := by
    unfold advanceSrcPlayData clampEndLayer
    norm_num [clampState]
    exact fun h => by cases h
  have hstep : updateStepForLayer ⟨0, 0, 0⟩ clampEndLayer 500 =
      .ok ⟨⟨0, 0, 0⟩,
           { clampEndLayer with
               srcPlayData := ⟨some clampState, 1, some PlayState.Playing, some ⟨[]⟩⟩ },
           none⟩ := by
    unfold updateStepForLayer
    rw [hadv]
    simp [clampEndLayer, clampState]
  unfold update
  norm_num [clampAnimator, animatorWith, List.range_succ, hstep, Except.map]

/-- Claim C3: on a `CrossFading` layer whose in-flight transition reaches
its duration during this step (cumulative elapsed cross-fade time at least
`duration`), the step yields cross weight 1, returns the layer to `Playing`
and promotes the destination record (with the computed dest frame time) to
`src`. -/
theorem crossFade_completion_promotes (poseT : AnimatorStateTransition)
    (d : AnimatorLayerData) (s destS : AnimatorState)
    (t : AnimatorStateTransition) (rest : List AnimatorStateTransition) (dt : ℚ)
    (hls : d.layerState = LayerState.CrossFading)
    (hstate : d.srcPlayData.state = some s)
    (hts : s.transitions = t :: rest)
    (hps : d.srcPlayData.playState = some PlayState.Fading)
    (hdest : d.destPlayData.state = some destS)
    (hD : 0 < t.duration)
    (hreach : t.duration ≤ t.crossFadeFrameTime + dt / 1000) :
    updateStepForLayer poseT d dt =
      .ok ⟨poseT,
           { d with
               srcPlayData := { d.destPlayData with
                 frameTime := wrapDestFrameTime destS
                     (t.offset + (t.crossFadeFrameTime + dt / 1000)) },
               destPlayData := { d.destPlayData with
                 frameTime := wrapDestFrameTime destS
                     (t.offset + (t.crossFadeFrameTime + dt / 1000)) },
               layerState := LayerState.Playing },
           some 1⟩ := by
  have hadv : advanceSrcPlayData d.srcPlayData dt = .ok
      { d.srcPlayData with frameTime := d.srcPlayData.frameTime + dt / 1000 } := by
    unfold advanceSrcPlayData
    simp [hps]
  have hcw : (1:ℚ) ≤ (t.crossFadeFrameTime + dt / 1000) / t.duration :=
    (one_le_div hD).mpr hreach
  unfold updateStepForLayer
  rw [hadv]
  simp only [hls, hstate, hts, List.head?_cons]
  unfold updateCrossFade
  simp only [hdest]
  simp [hcw, ge_iff_le]

/-- Witness for C3's theorem: a quarter-second transition at 0 elapsed,
stepped by 250 ms. -/
theorem crossFade_completion_promotes_witness :
    updateStepForLayer poseT0 crossFadingLayer 250 =
      .ok ⟨poseT0,
           { crossFadingLayer with
               srcPlayData := { crossFadingLayer.destPlayData with
                 frameTime := wrapDestFrameTime walkState (0 + (0 + 250 / 1000)) },
               destPlayData := { crossFadingLayer.destPlayData with
                 frameTime := wrapDestFrameTime walkState (0 + (0 + 250 / 1000)) },
               layerState := LayerState.Playing },
           some 1⟩ :=
  crossFade_completion_promotes poseT0 crossFadingLayer fadeSrcState walkState
    ⟨1/4, 0, 0⟩ [] 250 rfl rfl rfl rfl rfl (by norm_num) (by norm_num)

/-- Claim C4 (code bug): the diff-from-base-pose dispatch drops the
`Vector4` kind.  The source's `switch` lists `case
InterpolableValueType.Vector3` twice — the second occurrence (which calls
`_calculateVector4Diff`) is dead — so a `Vector4`-typed value matches no
case and `_calculateDiff` leaves every register unchanged, while
`_calculateVector4Diff` (evaluated alongside for contrast) would produce the
component-wise difference. -/
theorem calculateDiff_drops_vector4 :
    calculateDiff DiffState.initial InterpolableValueType.Vector4
        AnimationProperty.Position (.vec4 ⟨1, 2, 3, 4⟩) (.vec4 ⟨5, 6, 7, 8⟩)
      = DiffState.initial ∧
    (calculateVector4Diff DiffState.initial AnimationProperty.Position
        ⟨1, 2, 3, 4⟩ ⟨5, 6, 7, 8⟩).diffVector4FromBasePose = ⟨4, 4, 4, 4⟩ := by
  refine ⟨rfl, ?_⟩
  norm_num [calculateVector4Diff]
  decide

/-- Claim C5 (code bug): a `crossFade` call on a layer already in
`FixedCrossFading` does not complete: the `switch` in `crossFade` never
assigns the local `transition` in that case, so the assignment
`transition.duration = …` after the switch dereferences `undefined` and
throws a TypeError (after the re-pairing has already mutated the buffer). -/
theorem crossFade_fixed_retarget_throws :
    crossFade fixedAnimator "walk" (1/2) 0 0 = .error JsError.typeError := rfl

/-- Claim C6: immediately after a resolving `play(S, layer, t)`, the layer's
src record has `frameTime = clipLength(S) * t` and `playState = Playing`,
and the layer's state is `Playing`. -/
theorem play_sets_src_record (a : Animator) (stateName : String)
    (layerIndex : ℤ) (i : ℕ) (S : AnimatorState) (t : ℚ)
    (hres : getAnimatorStateInfo a stateName layerIndex = .ok ((i : ℤ), some S)) :
    (play a stateName layerIndex t).map
        (fun a2 => ((a2.animatorLayersData i).srcPlayData.frameTime,
                    (a2.animatorLayersData i).srcPlayData.playState,
                    (a2.animatorLayersData i).layerState))
      = .ok (S.clipLength * t, some PlayState.Playing, LayerState.Playing) := by
  unfold play
  rw [hres]
  dsimp only
  rw [Int.toNat_natCast]
  unfold getAnimatorStateData
  rcases hmap : (a.animatorLayersData i).animatorStateDataMap stateName with _ | sd <;>
    simp [hmap, Except.map]

/-- Witness for C6's theorem: `play("walk", 0, 1/2)` on an idle animator. -/
theorem play_sets_src_record_witness :
    (play standbyAnimator "walk" 0 (1/2)).map
        (fun a2 => ((a2.animatorLayersData 0).srcPlayData.frameTime,
                    (a2.animatorLayersData 0).srcPlayData.playState,
                    (a2.animatorLayersData 0).layerState))
      = .ok (walkState.clipLength * (1/2), some PlayState.Playing,
             LayerState.Playing) :=
  play_sets_src_record standbyAnimator "walk" 0 0 walkState (1/2) rfl

/-- Claim C7: for a `Scale` property the diff from base pose is the
component-wise quotient `evaluatedValue / baseValue`, and applying the diff
additively multiplies the target's current scale component-wise; in
particular base `(2,2,2)` and evaluated `(4,4,4)` give diff `(2,2,2)`, and
applying it to `(1,1,1)` at weight 1 yields `(2,2,2)`. -/
theorem scale_diff_multiplies (st : DiffState) (base eval cur diff : Vector3)
    (hx : base.x ≠ 0) (hy : base.y ≠ 0) (hz : base.z ≠ 0) :
    (calculateVector3Diff st AnimationProperty.Scale base eval).diffVector3FromBasePose
        = ⟨eval.x / base.x, eval.y / base.y, eval.z / base.z⟩ ∧
    updateAdditiveScaleValue cur diff 1
        = ⟨cur.x * diff.x, cur.y * diff.y, cur.z * diff.z⟩ ∧
    (calculateVector3Diff st AnimationProperty.Scale ⟨2, 2, 2⟩ ⟨4, 4, 4⟩).diffVector3FromBasePose
        = ⟨2, 2, 2⟩ ∧
    updateAdditiveScaleValue ⟨1, 1, 1⟩ ⟨2, 2, 2⟩ 1 = ⟨2, 2, 2⟩ := by
  refine ⟨rfl, rfl, ?_, ?_⟩
  · norm_num [calculateVector3Diff]
  · norm_num [updateAdditiveScaleValue, calScaleWeight]

/-- Witness for C7's theorem at the spec's concrete numbers. -/
theorem scale_diff_multiplies_witness :
    (calculateVector3Diff DiffState.initial AnimationProperty.Scale
        ⟨2, 2, 2⟩ ⟨4, 4, 4⟩).diffVector3FromBasePose = ⟨2, 2, 2⟩ ∧
    updateAdditiveScaleValue ⟨1, 1, 1⟩ ⟨2, 2, 2⟩ 1 = ⟨2, 2, 2⟩ :=
  ⟨(scale_diff_multiplies DiffState.initial ⟨2, 2, 2⟩ ⟨4, 4, 4⟩ ⟨1, 1, 1⟩
      ⟨2, 2, 2⟩ (by norm_num) (by norm_num) (by norm_num)).2.2.1,
   (scale_diff_multiplies DiffState.initial ⟨2, 2, 2⟩ ⟨4, 4, 4⟩ ⟨1, 1, 1⟩
      ⟨2, 2, 2⟩ (by norm_num) (by norm_num) (by norm_num)).2.2.2⟩

/-- Claim C8: on a looping state playing past its clip end, the advance
phase wraps the frame time to `(old + dt) mod clipEndTime`, which lies in
`[0, clipEndTime)`. -/
theorem loop_wrapped_frameTime (poseT : AnimatorStateTransition)
    (d : AnimatorLayerData) (s : AnimatorState) (dt : ℚ)
    (hls : d.layerState = LayerState.Playing)
    (hstate : d.srcPlayData.state = some s)
    (hps : d.srcPlayData.playState = some PlayState.Playing)
    (hwrap : s.wrapMode = WrapMode.Loop)
    (hend : 0 < s.clipEndTime)
    (hover : s.clipEndTime < d.srcPlayData.frameTime + dt / 1000) :
    ∃ r, updateStepForLayer poseT d dt = .ok r ∧
      r.layerData.srcPlayData.frameTime =
        jsMod (d.srcPlayData.frameTime + dt / 1000) s.clipEndTime ∧
      0 ≤ r.layerData.srcPlayData.frameTime ∧
      r.layerData.srcPlayData.frameTime < s.clipEndTime := by
  have ha : (0:ℚ) ≤ d.srcPlayData.frameTime + dt / 1000 :=
    le_of_lt (hend.trans hover)
  have hadv : advanceSrcPlayData d.srcPlayData dt = .ok
      { d.srcPlayData with
          frameTime := jsMod (d.srcPlayData.frameTime + dt / 1000) s.clipEndTime } := by
    unfold advanceSrcPlayData
    simp [hstate, hps, hwrap, hover]
  have hstep : updateStepForLayer poseT d dt = .ok
      ⟨poseT,
       { d with srcPlayData := { d.srcPlayData with
           frameTime := jsMod (d.srcPlayData.frameTime + dt / 1000) s.clipEndTime,
           playState := some PlayState.Playing } }, none⟩ := by
    unfold updateStepForLayer
    simp [hls, hadv, hstate]
  exact ⟨_, hstep, by simp, by simp; exact jsMod_nonneg ha hend,
         by simp; exact jsMod_lt ha hend⟩

/-- Witness for C8's theorem: the 1-second loop at `frameTime = 1/2`,
stepped by 700 ms: the wrap fires. -/
theorem loop_wrapped_frameTime_witness :
    ∃ r, updateStepForLayer poseT0 loopMidLayer 700 = .ok r ∧
      r.layerData.srcPlayData.frameTime =
        jsMod (loopMidLayer.srcPlayData.frameTime + 700 / 1000) idleState.clipEndTime ∧
      0 ≤ r.layerData.srcPlayData.frameTime ∧
      r.layerData.srcPlayData.frameTime < idleState.clipEndTime :=
  loop_wrapped_frameTime poseT0 loopMidLayer idleState 700 rfl rfl rfl rfl
    (by norm_num [idleState]) (by norm_num [loopMidLayer, idleState])

/-- Claim C9: a resolving `crossFade` that completes writes a transition
whose offset is `clipLength * normalizedTimeOffset` and whose duration
never exceeds `clipEndTime - offset`. -/
theorem crossFade_duration_clamped (a : Animator) (stateName : String)
    (ntd nto : ℚ) (layerIndex vi : ℤ) (S : AnimatorState)
    (a2 : Animator) (t2 : AnimatorStateTransition)
    (hres : getAnimatorStateInfo a stateName layerIndex = .ok (vi, some S))
    (hok : crossFade a stateName ntd layerIndex nto = .ok (a2, some t2)) :
    t2.offset = S.clipLength * nto ∧
    t2.duration ≤ S.clipEndTime - t2.offset := by
  unfold crossFade at hok
  rw [hres] at hok
  dsimp only at hok
  repeat' split at hok
  all_goals simp at hok
  all_goals
    rcases hok with ⟨h1, h2⟩
    subst h2
    refine ⟨(writeTransitionTimes_le _ S ntd nto).1, ?_⟩
    rw [(writeTransitionTimes_le _ S ntd nto).1]
    exact (writeTransitionTimes_le _ S ntd nto).2

/-- Witness for C9's theorem: `crossFade("walk", 2, 0, 0)` from `Standby`;
the requested duration `clipLength * 2 = 1` exceeds `clipEndTime - offset =
1/2` and is clamped. -/
theorem crossFade_duration_clamped_witness :
    ∃ a2 t2, crossFade standbyAnimator "walk" 2 0 0 = .ok (a2, some t2) ∧
      t2.offset = walkState.clipLength * 0 ∧
      t2.duration ≤ walkState.clipEndTime - t2.offset := by
  obtain ⟨a2, hok⟩ :=
    crossFade_standby_ok standbyAnimator "walk" 2 0 0 0 walkState rfl rfl rfl rfl rfl
  exact ⟨a2, _, hok,
    crossFade_duration_clamped standbyAnimator "walk" 2 0 0 ((0:ℕ) : ℤ) walkState
      a2 _ rfl hok⟩

/-- Claim C10: a `FixedCrossFading` layer never leaves `FixedCrossFading`
through `update`; when the fixed-pose cross-fade reaches cross weight 1 the
destination record (marked `Playing`, carrying the computed dest frame
time) is promoted to `src`, but the layer state is not changed. -/
theorem fixedCrossFade_stays_fixed (poseT : AnimatorStateTransition)
    (d : AnimatorLayerData) (destS : AnimatorState) (dt : ℚ)
    (hls : d.layerState = LayerState.FixedCrossFading)
    (hdest : d.destPlayData.state = some destS)
    (hsrc : d.srcPlayData.playState = some PlayState.Playing →
      d.srcPlayData.state.isSome = true)
    (hD : 0 < poseT.duration) :
    ∃ r, updateStepForLayer poseT d dt = .ok r ∧
      r.layerData.layerState = LayerState.FixedCrossFading ∧
      (poseT.duration ≤ poseT.crossFadeFrameTime + dt / 1000 →
        r.layerData.srcPlayData =
          { d.destPlayData with
              playState := some PlayState.Playing,
              frameTime := wrapDestFrameTime destS
                (poseT.offset + (poseT.crossFadeFrameTime + dt / 1000)) }) := by
  obtain ⟨src1, hadv⟩ := advanceSrcPlayData_isOk d.srcPlayData dt hsrc
  unfold updateStepForLayer
  rw [hadv]
  simp only [hls]
  unfold updateCrossFadeFromPose
  rw [hdest]
  by_cases hreach : poseT.duration ≤ poseT.crossFadeFrameTime + dt / 1000
  · have hcw : (1:ℚ) ≤ (poseT.crossFadeFrameTime + dt / 1000) / poseT.duration :=
      (one_le_div hD).mpr hreach
    simp only [ge_iff_le, hcw, if_true]
    refine ⟨_, rfl, by simp [hls], fun _ => ?_⟩
    simp [hdest]
  · have hcw : ¬ (1:ℚ) ≤ (poseT.crossFadeFrameTime + dt / 1000) / poseT.duration := by
      rw [one_le_div hD]; exact hreach
    simp only [ge_iff_le, hcw, if_false]
    by_cases hdp : d.destPlayData.playState = some PlayState.Playing
    · simp only [hdp, if_true]
      refine ⟨_, rfl, by simp [hls], fun h => absurd h hreach⟩
    · simp only [hdp, if_false]
      refine ⟨_, rfl, by simp [hls], fun h => absurd h hreach⟩

/-- Witness for C10's theorem: a fixed-pose quarter-second transition
stepped by 300 ms reaches its duration; the layer stays
`FixedCrossFading`. -/
theorem fixedCrossFade_stays_fixed_witness :
    ∃ r, updateStepForLayer poseTQuarter fixedLayer 300 = .ok r ∧
      r.layerData.layerState = LayerState.FixedCrossFading ∧
      (poseTQuarter.duration ≤ poseTQuarter.crossFadeFrameTime + 300 / 1000 →
        r.layerData.srcPlayData =
          { fixedLayer.destPlayData with
              playState := some PlayState.Playing,
              frameTime := wrapDestFrameTime walkState
                (poseTQuarter.offset + (poseTQuarter.crossFadeFrameTime + 300 / 1000)) }) :=
  fixedCrossFade_stays_fixed poseTQuarter fixedLayer walkState 300 rfl rfl
    (fun h => absurd h (by decide)) (by norm_num [poseTQuarter])

end Anim
